import Mathlib

/-!
Shallow embedding of the porkbun-cli client (Python), covering the API
wrapper (`src/porkbun_cli/api.py`), the CLI command handlers
(`src/porkbun_cli/cli.py`), the interactive menus
(`src/porkbun_cli/interactive.py`) and the tool-server adapter
(`src/server.py`).

Modelling conventions:
* Python strings are `List Char` (abbreviated `Str`); `str s` injects a
  Lean string literal.
* A Python value that may be `None` is an `Option`; Python truthiness of
  an optional string (`if x:`) is `truthy`: present and non-empty.
* JSON dictionary fields read with `d.get(k)` become `Option` fields of a
  structure.
* The network is an oracle `net : NetReq → Except Str ServerResp`; a
  method "issues a network request" exactly when the request value
  appears in the returned trace (`List NetReq`).  A raised Python
  exception is the `Except.error` branch carrying the message.
* Interactive `input()`/prompt answers are explicit arguments, and the
  side effects of a command are the list of API calls it issues.
-/

abbrev Str : Type := List Char

/-- Inject a Lean string literal as a modelled Python string. -/
def str (s : String) : Str := s.data

/-- Python truthiness of an optional string: present and non-empty. -/
def truthy (o : Option Str) : Bool :=
  match o with
  | none => false
  | some s => !s.isEmpty

/-- Decimal rendering of an integer, as Python `str(i)` on an `int`. -/
def intStr (i : Int) : Str := (toString i).data

/-- Decimal rendering of a natural number, as Python `str(n)`. -/
def natStr (n : Nat) : Str := (toString n).data

/-- Python `s.upper()` (ASCII behaviour suffices for the action words). -/
def upper (s : Str) : Str := s.map Char.toUpper

/-- A DNS record as returned by the server: a JSON dictionary whose
fields are read with `r.get(...)`, hence all optional. -/
structure DnsRecord where
  rtype : Option Str
  name : Option Str
  id : Option Str
  content : Option Str
  prio : Option Str
  ttl : Option Str
deriving DecidableEq, Repr

/-- The credential pair held by `PorkbunAPI` after `__init__`
(`self.api_key`, `self.secret_api_key`); either may be `None` or empty. -/
structure Creds where
  api_key : Option Str
  secret_api_key : Option Str
deriving DecidableEq, Repr

/-- A network request actually handed to `requests.post`: the endpoint
path appended to the base URL and the JSON payload. -/
structure NetReq where
  endpoint : Str
  payload : List (Str × Str)
deriving DecidableEq, Repr

/-- The parsed JSON body of a successful response; `records` models
`res.get('records', [])` (absent list = empty). -/
structure ServerResp where
  records : List DnsRecord
deriving DecidableEq, Repr

/-- The message of the `ValueError` raised by `_get_auth_payload`. -/
def missingCredsMsg : Str :=
  str "API key and Secret key are required. Run 'porkbun configure' first."

/-- `PorkbunAPI._get_auth_payload` (api.py lines 41-47): raise unless
both keys are truthy, else return the auth dictionary. -/
def get_auth_payload (c : Creds) : Except Str (List (Str × Str)) :=
  if truthy c.api_key && truthy c.secret_api_key then
    .ok [(str "apikey", (c.api_key).getD []),
         (str "secretapikey", (c.secret_api_key).getD [])]
  else
    .error missingCredsMsg

/-- `PorkbunAPI._request` (api.py lines 49-63): build the auth payload
(raising before any network I/O when credentials are missing), merge the
operation data, and post.  The returned list is the trace of network
requests actually issued. -/
def request (c : Creds) (net : NetReq → Except Str ServerResp)
    (endpoint : Str) (data : List (Str × Str)) :
    List NetReq × Except Str ServerResp :=
  match get_auth_payload c with
  | .error e => ([], .error e)
  | .ok auth =>
      let req : NetReq := ⟨endpoint, auth ++ data⟩
      ([req], net req)

/-- Payload of `PorkbunAPI.dns_create` (api.py lines 112-121): `type`
and `content` always; `name` only when truthy; `prio`/`ttl` only when
not `None`, rendered with `str(...)`. -/
def dns_create_data (record_type content : Str) (name : Option Str)
    (prio ttl : Option Int) : List (Str × Str) :=
  [(str "type", record_type), (str "content", content)]
  ++ (match name with
      | some n => if n.isEmpty then [] else [(str "name", n)]
      | none => [])
  ++ (match prio with
      | some p => [(str "prio", intStr p)]
      | none => [])
  ++ (match ttl with
      | some t => [(str "ttl", intStr t)]
      | none => [])

/-- Payload of `PorkbunAPI.dns_edit` (api.py lines 123-132); the body is
textually the same construction as `dns_create`. -/
def dns_edit_data (record_type content : Str) (name : Option Str)
    (prio ttl : Option Int) : List (Str × Str) :=
  [(str "type", record_type), (str "content", content)]
  ++ (match name with
      | some n => if n.isEmpty then [] else [(str "name", n)]
      | none => [])
  ++ (match prio with
      | some p => [(str "prio", intStr p)]
      | none => [])
  ++ (match ttl with
      | some t => [(str "ttl", intStr t)]
      | none => [])

/-- `PorkbunAPI.dns_retrieve` (api.py lines 104-106). -/
def dns_retrieve (c : Creds) (net : NetReq → Except Str ServerResp)
    (domain : Str) : List NetReq × Except Str ServerResp :=
  request c net (str "dns/retrieve/" ++ domain) []

/-- `PorkbunAPI.dns_create` (api.py lines 112-121). -/
def dns_create (c : Creds) (net : NetReq → Except Str ServerResp)
    (domain record_type content : Str) (name : Option Str)
    (prio ttl : Option Int) : List NetReq × Except Str ServerResp :=
  request c net (str "dns/create/" ++ domain)
    (dns_create_data record_type content name prio ttl)

/-- `PorkbunAPI.dns_edit` (api.py lines 123-132). -/
def dns_edit (c : Creds) (net : NetReq → Except Str ServerResp)
    (domain record_id record_type content : Str) (name : Option Str)
    (prio ttl : Option Int) : List NetReq × Except Str ServerResp :=
  request c net (str "dns/edit/" ++ domain ++ ['/'] ++ record_id)
    (dns_edit_data record_type content name prio ttl)

/-- `PorkbunAPI.dns_delete` (api.py lines 146-148). -/
def dns_delete (c : Creds) (net : NetReq → Except Str ServerResp)
    (domain record_id : Str) : List NetReq × Except Str ServerResp :=
  request c net (str "dns/delete/" ++ domain ++ ['/'] ++ record_id) []

/-- `PorkbunAPI.domain_list` (api.py lines 69-71). -/
def domain_list (c : Creds) (net : NetReq → Except Str ServerResp) :
    List NetReq × Except Str ServerResp :=
  request c net (str "domain/listAll") []

/-- `PorkbunAPI.domain_check` (api.py lines 73-75). -/
def domain_check (c : Creds) (net : NetReq → Except Str ServerResp)
    (domain : Str) : List NetReq × Except Str ServerResp :=
  request c net (str "pricing/get/" ++ domain) []

/-- The fully-qualified target name built by `dns_upsert` (api.py line
162): `f"{name}.{domain}" if name else domain`, with Python truthiness
on `name`. -/
def target_name (name : Option Str) (domain : Str) : Str :=
  if truthy name then (name.getD []) ++ ['.'] ++ domain else domain

/-- The scan loop of `dns_upsert` (api.py lines 164-168): walk the
records in server order, and at the first record whose `type` and
`name` fields equal the requested pair, return its `id` field as
stored (which the source then tests for truthiness).  `none` when no
record matches or the first match has no `id` key. -/
def find_existing_id (records : List DnsRecord) (record_type tn : Str) :
    Option Str :=
  match records with
  | [] => none
  | r :: rest =>
      if r.rtype == some record_type && r.name == some tn then r.id
      else find_existing_id rest record_type tn

/-- The branch taken after the scan (api.py lines 170-175). -/
inductive UpsertAction where
  | edit (id : Str)
  | create
deriving DecidableEq, Repr

/-- The edit-or-create decision of `dns_upsert`: `if existing_id:` is
Python truthiness, so a first match whose `id` is absent or empty falls
through to create. -/
def upsert_decision (records : List DnsRecord) (record_type tn : Str) :
    UpsertAction :=
  match find_existing_id records record_type tn with
  | some i => if i.isEmpty then .create else .edit i
  | none => .create

/-- `PorkbunAPI.dns_upsert` (api.py lines 157-175): retrieve all
records, scan for an existing id, then edit or create. -/
def dns_upsert (c : Creds) (net : NetReq → Except Str ServerResp)
    (domain record_type content : Str) (name : Option Str)
    (prio ttl : Option Int) : List NetReq × Except Str ServerResp :=
  let (t1, r1) := dns_retrieve c net domain
  match r1 with
  | .error e => (t1, .error e)
  | .ok res =>
      let tn := target_name name domain
      match upsert_decision res.records record_type tn with
      | .edit i =>
          let (t2, r2) := dns_edit c net domain i record_type content name prio ttl
          (t1 ++ t2, r2)
      | .create =>
          let (t2, r2) := dns_create c net domain record_type content name prio ttl
          (t1 ++ t2, r2)

/-! ### Tool-server adapter (`src/server.py`) -/

/-- A tool result as returned by `handle_call_tool`: the text of its
single content block and the `isError` flag. -/
structure ToolResult where
  text : Str
  isError : Bool
deriving DecidableEq, Repr

/-- The arguments dictionary of a `tools/call` request; bracket access
on a missing key raises inside the handler's `try`. -/
structure ToolArgs where
  domain : Option Str
  rtype : Option Str
  content : Option Str
  name : Option Str
  record_id : Option Str
deriving DecidableEq, Repr

/-- The early-exit message of `handle_call_tool` (server.py line 87). -/
def credsNotSetMsg : Str :=
  str "Error: PORKBUN_API_KEY and PORKBUN_SECRET_KEY not set."

/-- Message of the `KeyError` raised by `arguments[...]` on a missing
required argument; the exact Python text is irrelevant to the claims. -/
def keyErrorMsg : Str := str "KeyError"

/-- Run one API method inside the handler's `try`: an exception becomes
an error-flagged result with the `Error executing {name}` prefix
(server.py lines 121-122), a success is rendered with the abstract
`dump` (standing for the `json.dumps` post-processing of the body). -/
def toolWrap (name : Str) (dump : ServerResp → Str)
    (r : List NetReq × Except Str ServerResp) : List NetReq × ToolResult :=
  match r with
  | (t, .ok res) => (t, ⟨dump res, false⟩)
  | (t, .error e) =>
      (t, ⟨str "Error executing " ++ name ++ str ": " ++ e, true⟩)

/-- `handle_call_tool` (server.py lines 85-122): check only `api_key`
truthiness up-front, then dispatch the five tools; every exception from
argument access or the API client is caught and flagged.  The first
component is the trace of network requests issued. -/
def handle_call_tool (c : Creds) (net : NetReq → Except Str ServerResp)
    (dump : ServerResp → Str) (name : Str) (args : ToolArgs) :
    List NetReq × ToolResult :=
  if !truthy c.api_key then ([], ⟨credsNotSetMsg, true⟩)
  else if name = str "dream_porkbun_list_domains" then
    toolWrap name dump (domain_list c net)
  else if name = str "dream_porkbun_check_domain" then
    match args.domain with
    | none => ([], ⟨keyErrorMsg, true⟩)
    | some d => toolWrap name dump (domain_check c net d)
  else if name = str "dream_porkbun_dns_list" then
    match args.domain with
    | none => ([], ⟨keyErrorMsg, true⟩)
    | some d => toolWrap name dump (dns_retrieve c net d)
  else if name = str "dream_porkbun_dns_update" then
    match args.domain, args.rtype, args.content with
    | some d, some ty, some co =>
        toolWrap name dump (dns_upsert c net d ty co args.name none none)
    | _, _, _ => ([], ⟨keyErrorMsg, true⟩)
  else if name = str "dream_porkbun_dns_delete" then
    match args.domain, args.record_id with
    | some d, some rid => toolWrap name dump (dns_delete c net d rid)
    | _, _ => ([], ⟨keyErrorMsg, true⟩)
  else ([], ⟨str "Tool not found: " ++ name, true⟩)

/-! ### CLI side effects of the destructive commands
(`src/porkbun_cli/cli.py`, `src/porkbun_cli/interactive.py`)

A command's observable side effect is the list of API-client calls it
makes; prompt answers are passed in explicitly. -/

/-- An invocation of an API-client method, at method granularity. -/
inductive ApiCall where
  | create (domain record_type content : Str) (name : Option Str)
      (prio ttl : Option Str)
  | upsert (domain record_type content : Str) (name : Option Str)
      (prio ttl : Option Str)
  | delete (domain record_id : Str)
  | deleteByNameType (domain record_type : Str) (name : Option Str)
  | domainCreate (domain : Str)
deriving DecidableEq, Repr

/-- `cmd_domain_buy` (cli.py lines 98-115): the `input()` answer must be
exactly `YES`, otherwise the handler exits before calling
`domain_create`. -/
def cmd_domain_buy (domain : Str) (confirmAnswer : Str) : List ApiCall :=
  if confirmAnswer = str "YES" then [ApiCall.domainCreate domain] else []

/-- `cmd_dns_delete` (cli.py lines 230-238): calls `dns_delete`
directly; the handler reads no confirmation at all. -/
def cmd_dns_delete (domain record_id : Str) : List ApiCall :=
  [ApiCall.delete domain record_id]

/-- The `Delete record` branch of `interactive_dns` (interactive.py
lines 133-142): a truthy record id plus a boolean `questionary.confirm`
answer gate the `dns_delete` call. -/
def interactive_dns_delete (domain : Str) (record_id : Option Str)
    (confirmAnswer : Bool) : List ApiCall :=
  if truthy record_id then
    if confirmAnswer then [ApiCall.delete domain (record_id.getD [])] else []
  else []

/-! ### Table rendering and export (`cmd_dns_list`, `cmd_bulk_export`,
`interactive_dns`) -/

/-- The content cell of `cmd_dns_list`'s table (cli.py lines 191-193):
contents longer than 50 characters are cut to 47 plus `"..."`. -/
def cli_dns_content_cell (r : DnsRecord) : Str :=
  let c := (r.content).getD []
  if c.length > 50 then c.take 47 ++ str "..." else c

/-- The content cell of `interactive_dns`'s `List all records` table
(interactive.py line 86): `r.get('content', '')[:40]`, a plain slice. -/
def interactive_dns_content_cell (r : DnsRecord) : Str :=
  ((r.content).getD []).take 40

/-- One element of `export_data['records']` in `cmd_bulk_export`
(cli.py lines 320-327): a field projection of the server record. -/
structure ExportRecord where
  id : Option Str
  rtype : Option Str
  name : Option Str
  content : Option Str
  prio : Option Str
  ttl : Option Str
deriving DecidableEq, Repr

/-- The JSON export projection of `cmd_bulk_export`. -/
def export_projection (r : DnsRecord) : ExportRecord :=
  ⟨r.id, r.rtype, r.name, r.content, r.prio, r.ttl⟩

/-- One CSV data row of `cmd_bulk_export` (cli.py lines 336-343), in
header order `type,name,content,prio,ttl`; `None` cells are written as
the empty string by the csv writer, and `r['prio'] or ''` maps both
`None` and `''` to `''`. -/
def csv_row (r : ExportRecord) : List Str :=
  [(r.rtype).getD [], (r.name).getD [], (r.content).getD [],
   (r.prio).getD [], (r.ttl).getD []]

/-! ### Bulk import (`cmd_bulk_import`, `interactive_bulk`) -/

/-- A bulk record descriptor after parsing (cli.py lines 369-388): the
parse loops guarantee `action`, `type`, `name` and `content` are
present (`action` defaulted to `create`, `name` to `''`), while `prio`,
`ttl` and `id` stay optional. -/
structure BulkRecord where
  action : Str
  rtype : Str
  name : Str
  content : Str
  prio : Option Str
  ttl : Option Str
  id : Option Str
deriving DecidableEq, Repr

/-- The subdomain derivation of the import loops (cli.py lines 403-408,
interactive.py lines 400-406): strip a trailing `"." + domain`, map the
bare domain to the empty subdomain, and keep any other name verbatim.
`name[:-len('.' + domain)]` is the prefix of length
`name.length - (domain.length + 1)`. -/
def derive_subdomain (name domain : Str) : Str :=
  if (('.' :: domain)).isSuffixOf name then
    name.take (name.length - ('.' :: domain).length)
  else if name = domain then []
  else name

/-- The intended-action line of `cmd_bulk_import` (cli.py line 410):
`[{i}/{n}] {ACTION} {type} {name or '(root)'} -> {content[:30]}`. -/
def desc_line (i n : Nat) (r : BulkRecord) : Str :=
  str "[" ++ natStr i ++ str "/" ++ natStr n ++ str "] "
  ++ upper r.action ++ str " " ++ r.rtype ++ str " "
  ++ (if r.name.isEmpty then str "(root)" else r.name)
  ++ str " -> " ++ r.content.take 30

/-- One line printed by the import loop for one descriptor. -/
inductive ImportLine where
  | dry (desc : Str)
  | ok (desc : Str)
  | fail (desc : Str) (err : Str)
deriving DecidableEq, Repr

/-- The API call issued for one non-dry-run descriptor by
`cmd_bulk_import` (cli.py lines 416-425): dispatch on the action word;
`delete` uses the id when truthy, else delete-by-name-and-type; any
other action word issues nothing. -/
def import_action (domain : Str) (r : BulkRecord) : List ApiCall :=
  let sub := derive_subdomain r.name domain
  let subOpt : Option Str := if sub.isEmpty then none else some sub
  if r.action = str "create" then
    [ApiCall.create domain r.rtype r.content subOpt r.prio r.ttl]
  else if r.action = str "upsert" then
    [ApiCall.upsert domain r.rtype r.content subOpt r.prio r.ttl]
  else if r.action = str "delete" then
    if truthy r.id then [ApiCall.delete domain ((r.id).getD [])]
    else [ApiCall.deleteByNameType domain r.rtype subOpt]
  else []

/-- Processing of one descriptor by `cmd_bulk_import` (cli.py lines
399-428).  `failures` is the oracle saying whether an issued API call
raises (`some message`); in a dry run the line is printed and the loop
continues before any call; otherwise the call's exception is caught
into a `FAIL` line, and a record whose action dispatches to no call
still falls through to the `OK` print. -/
def import_step (failures : ApiCall → Option Str) (domain : Str)
    (dry_run : Bool) (i n : Nat) (r : BulkRecord) :
    ImportLine × List ApiCall :=
  let d := desc_line i n r
  if dry_run then (ImportLine.dry d, [])
  else
    match import_action domain r with
    | [] => (ImportLine.ok d, [])
    | a :: _ =>
        match failures a with
        | some e => (ImportLine.fail d e, [a])
        | none => (ImportLine.ok d, [a])

/-- The `for i, r in enumerate(records, 1)` loop of `cmd_bulk_import`,
collecting printed lines and issued API calls. -/
def import_loop (failures : ApiCall → Option Str) (domain : Str)
    (dry_run : Bool) (n : Nat) : Nat → List BulkRecord →
    List ImportLine × List ApiCall
  | _, [] => ([], [])
  | i, r :: rest =>
      let s := import_step failures domain dry_run i n r
      let srest := import_loop failures domain dry_run n (i + 1) rest
      (s.1 :: srest.1, s.2 ++ srest.2)

/-- The whole record-processing phase of `cmd_bulk_import` on an
already-parsed descriptor list. -/
def cmd_bulk_import (failures : ApiCall → Option Str) (domain : Str)
    (dry_run : Bool) (records : List BulkRecord) :
    List ImportLine × List ApiCall :=
  import_loop failures domain dry_run records.length 1 records

/-- The intended-action line of `interactive_bulk` (interactive.py line
394): `[{i}] {ACTION} {type} {name} -> {content[:30]}` (on descriptors
normalised by the parse, `r.get(...)` defaults do not fire). -/
def interactive_desc_line (i : Nat) (r : BulkRecord) : Str :=
  str "[" ++ natStr i ++ str "] " ++ upper r.action ++ str " "
  ++ r.rtype ++ str " " ++ r.name ++ str " -> " ++ r.content.take 30

/-- Processing of one descriptor by `interactive_bulk` (interactive.py
lines 392-414): the dry-run branch only prints; the live branch
dispatches `create` and `upsert` only, any other action printing `OK`
with no call. -/
def interactive_import_step (failures : ApiCall → Option Str)
    (domain : Str) (dry_run : Bool) (i : Nat) (r : BulkRecord) :
    ImportLine × List ApiCall :=
  let d := interactive_desc_line i r
  if dry_run then (ImportLine.dry d, [])
  else
    let sub := derive_subdomain r.name domain
    let subOpt : Option Str := if sub.isEmpty then none else some sub
    let calls :=
      if r.action = str "create" then
        [ApiCall.create domain r.rtype r.content subOpt r.prio r.ttl]
      else if r.action = str "upsert" then
        [ApiCall.upsert domain r.rtype r.content subOpt r.prio r.ttl]
      else []
    match calls with
    | [] => (ImportLine.ok d, [])
    | a :: _ =>
        match failures a with
        | some e => (ImportLine.fail d e, [a])
        | none => (ImportLine.ok d, [a])

/-- The descriptor loop of `interactive_bulk`. -/
def interactive_import_loop (failures : ApiCall → Option Str)
    (domain : Str) (dry_run : Bool) : Nat → List BulkRecord →
    List ImportLine × List ApiCall
  | _, [] => ([], [])
  | i, r :: rest =>
      let s := interactive_import_step failures domain dry_run i r
      let srest := interactive_import_loop failures domain dry_run (i + 1) rest
      (s.1 :: srest.1, s.2 ++ srest.2)

/-- The whole record-processing phase of `interactive_bulk` on an
already-parsed descriptor list. -/
def interactive_bulk_import (failures : ApiCall → Option Str)
    (domain : Str) (dry_run : Bool) (records : List BulkRecord) :
    List ImportLine × List ApiCall :=
  interactive_import_loop failures domain dry_run 1 records

/-- The upsert decision as the specification words it: the first record
(in server order) whose type and name equal the requested pair is
edited through its id; with no such record a create is issued.  Written
with `List.find?` to be compared against the source's scan loop. -/
def upsert_action_of_first_match (records : List DnsRecord)
    (record_type tn : Str) : UpsertAction :=
  match records.find?
      (fun r => r.rtype == some record_type && r.name == some tn) with
  | some r =>
      match r.id with
      | some i => if i.isEmpty then .create else .edit i
      | none => .create
  | none => .create

/-! ## Theorems -/

theorem find_existing_id_cons_false (r : DnsRecord) (rest : List DnsRecord)
    (ty tn : Str) (h : ¬(r.rtype = some ty ∧ r.name = some tn)) :
    find_existing_id (r :: rest) ty tn = find_existing_id rest ty tn := by
  have hc : (r.rtype == some ty && r.name == some tn) = false := by
    rcases hb : (r.rtype == some ty && r.name == some tn) with _ | _
    · rfl
    · rw [Bool.and_eq_true, beq_iff_eq, beq_iff_eq] at hb
      exact absurd hb h
  simp [find_existing_id, hc]

theorem find_existing_id_append_of_nomatch (l₁ l₂ : List DnsRecord)
    (ty tn : Str) (h : ∀ r ∈ l₁, ¬(r.rtype = some ty ∧ r.name = some tn)) :
    find_existing_id (l₁ ++ l₂) ty tn = find_existing_id l₂ ty tn := by
  induction l₁ with
  | nil => rfl
  | cons r rest ih =>
      rw [List.cons_append,
        find_existing_id_cons_false r (rest ++ l₂) ty tn
          (h r (List.mem_cons_self ..))]
      exact ih (fun x hx => h x (List.mem_cons_of_mem _ hx))

theorem find_existing_id_eq_none_of_nomatch (records : List DnsRecord)
    (ty tn : Str) (h : ∀ r ∈ records, ¬(r.rtype = some ty ∧ r.name = some tn)) :
    find_existing_id records ty tn = none := by
  induction records with
  | nil => rfl
  | cons r rest ih =>
      rw [find_existing_id_cons_false r rest ty tn (h r (List.mem_cons_self ..))]
      exact ih (fun x hx => h x (List.mem_cons_of_mem _ hx))

theorem upsert_decision_eq_first_match (records : List DnsRecord)
    (ty tn : Str) :
    upsert_decision records ty tn = upsert_action_of_first_match records ty tn := by
  induction records with
  | nil => rfl
  | cons r rest ih =>
      rcases hc : (r.rtype == some ty && r.name == some tn) with _ | _
      · simpa [upsert_decision, upsert_action_of_first_match,
          find_existing_id, List.find?, hc] using ih
      · simp [upsert_decision, upsert_action_of_first_match,
          find_existing_id, List.find?, hc]

theorem dns_upsert_endpoints (c : Creds) (net : NetReq → Except Str ServerResp)
    (domain record_type content : Str) (name : Option Str)
    (prio ttl : Option Int) (records : List DnsRecord)
    (hauth : (truthy c.api_key && truthy c.secret_api_key) = true)
    (hnet : (dns_retrieve c net domain).2 = .ok ⟨records⟩) :
    (dns_upsert c net domain record_type content name prio ttl).1.map NetReq.endpoint
      = (str "dns/retrieve/" ++ domain) ::
        (match upsert_decision records record_type (target_name name domain) with
         | .edit i => [str "dns/edit/" ++ domain ++ ['/'] ++ i]
         | .create => [str "dns/create/" ++ domain]) := by
  have hga : get_auth_payload c
      = .ok [(str "apikey", (c.api_key).getD []),
             (str "secretapikey", (c.secret_api_key).getD [])] := by
    unfold get_auth_payload
    rw [if_pos hauth]
  unfold dns_retrieve request at hnet
  rw [hga] at hnet
  simp only at hnet
  unfold dns_upsert dns_retrieve request
  rw [hga]
  simp only [hnet]
  rcases hd : upsert_decision records record_type (target_name name domain)
      with i | _ <;>
    simp [dns_edit, dns_create, request, hga]

/-- Claim C1 counterexample: a server-returned list whose first (and
only) record matches the requested type and the fully-qualified target
name but carries no id.  The claim says an edit is issued against the
matching record; `dns_upsert` instead falls into the create branch,
because the source tests the scanned id for Python truthiness. -/
theorem upsert_match_without_id_creates :
    ((⟨some (str "A"), some (str "example.com"), none,
        some (str "1.2.3.4"), none, none⟩ : DnsRecord).rtype = some (str "A")
      ∧ (⟨some (str "A"), some (str "example.com"), none,
          some (str "1.2.3.4"), none, none⟩ : DnsRecord).name
          = some (target_name none (str "example.com")))
    ∧ upsert_decision
        [⟨some (str "A"), some (str "example.com"), none,
          some (str "1.2.3.4"), none, none⟩]
        (str "A") (target_name none (str "example.com"))
        = UpsertAction.create := by
  decide

/-- Claim C1 (amended): for every domain, record type, optional
subdomain (an empty subdomain counting as absent) and server-returned
record list, `dns_upsert` first fetches all records for the domain,
computes the fully-qualified target name, linearly scans for the first
record whose type and name equal the requested pair, and issues an edit
against that record's id when such a record exists with a present,
non-empty id; otherwise (no match, or the first match's id absent or
empty) it issues a create.  The first match in server-returned order
wins. -/
theorem dns_upsert_first_match_decision (c : Creds)
    (net : NetReq → Except Str ServerResp)
    (domain record_type content : Str) (name : Option Str)
    (prio ttl : Option Int) (records : List DnsRecord)
    (hauth : (truthy c.api_key && truthy c.secret_api_key) = true)
    (hnet : (dns_retrieve c net domain).2 = .ok ⟨records⟩) :
    (dns_upsert c net domain record_type content name prio ttl).1.map NetReq.endpoint
      = (str "dns/retrieve/" ++ domain) ::
        (match upsert_action_of_first_match records record_type
            (target_name name domain) with
         | .edit i => [str "dns/edit/" ++ domain ++ ['/'] ++ i]
         | .create => [str "dns/create/" ++ domain]) := by
  rw [dns_upsert_endpoints c net domain record_type content name prio ttl
    records hauth hnet, upsert_decision_eq_first_match]

/-- Witness for the amended C1 theorem: a concrete client, network and
record list on which the hypotheses hold and the edit branch is taken
against the stored id. -/
theorem dns_upsert_first_match_decision_witness :
    (dns_upsert ⟨some (str "k"), some (str "s")⟩
        (fun _ => .ok ⟨[⟨some (str "A"), some (str "www.example.com"),
          some (str "42"), some (str "1.2.3.4"), none, none⟩]⟩)
        (str "example.com") (str "A") (str "5.6.7.8") (some (str "www"))
        none none).1.map NetReq.endpoint
      = (str "dns/retrieve/" ++ str "example.com") ::
        (match upsert_action_of_first_match
            [⟨some (str "A"), some (str "www.example.com"),
              some (str "42"), some (str "1.2.3.4"), none, none⟩]
            (str "A") (target_name (some (str "www")) (str "example.com")) with
         | .edit i => [str "dns/edit/" ++ str "example.com" ++ ['/'] ++ i]
         | .create => [str "dns/create/" ++ str "example.com"]) :=
  dns_upsert_first_match_decision
    ⟨some (str "k"), some (str "s")⟩
    (fun _ => .ok ⟨[⟨some (str "A"), some (str "www.example.com"),
      some (str "42"), some (str "1.2.3.4"), none, none⟩]⟩)
    (str "example.com") (str "A") (str "5.6.7.8") (some (str "www"))
    none none
    [⟨some (str "A"), some (str "www.example.com"), some (str "42"),
      some (str "1.2.3.4"), none, none⟩]
    (by decide) rfl

/-- Claim C4 (confirmed): once a first `dns_upsert` has created the
record (no record of the requested type and fully-qualified name was
present), a second `dns_upsert` with the same arguments against the
server state extended with the created record (which the server stores
under the fully-qualified name with a fresh non-empty id) issues an
edit against that same record id rather than a create. -/
theorem upsert_idempotent_after_create (c : Creds)
    (net₁ net₂ : NetReq → Except Str ServerResp)
    (domain record_type content : Str) (name : Option Str)
    (prio ttl : Option Int) (records : List DnsRecord)
    (newRec : DnsRecord) (newId : Str)
    (hauth : (truthy c.api_key && truthy c.secret_api_key) = true)
    (h₁ : (dns_retrieve c net₁ domain).2 = .ok ⟨records⟩)
    (hnomatch : ∀ r ∈ records,
      ¬(r.rtype = some record_type ∧ r.name = some (target_name name domain)))
    (h₂ : (dns_retrieve c net₂ domain).2 = .ok ⟨records ++ [newRec]⟩)
    (hty : newRec.rtype = some record_type)
    (hnm : newRec.name = some (target_name name domain))
    (hid : newRec.id = some newId) (hne : newId ≠ []) :
    (dns_upsert c net₁ domain record_type content name prio ttl).1.map NetReq.endpoint
      = [str "dns/retrieve/" ++ domain, str "dns/create/" ++ domain]
    ∧ (dns_upsert c net₂ domain record_type content name prio ttl).1.map NetReq.endpoint
      = [str "dns/retrieve/" ++ domain,
         str "dns/edit/" ++ domain ++ ['/'] ++ newId] := by
  have hdec₁ : upsert_decision records record_type (target_name name domain)
      = UpsertAction.create := by
    unfold upsert_decision
    rw [find_existing_id_eq_none_of_nomatch records _ _ hnomatch]
  have hfind : find_existing_id (records ++ [newRec]) record_type
      (target_name name domain) = some newId := by
    rw [find_existing_id_append_of_nomatch records [newRec] _ _ hnomatch]
    unfold find_existing_id
    rw [if_pos]
    · exact hid
    · rw [Bool.and_eq_true, beq_iff_eq, beq_iff_eq]
      exact ⟨hty, hnm⟩
  have hdec₂ : upsert_decision (records ++ [newRec]) record_type
      (target_name name domain) = UpsertAction.edit newId := by
    unfold upsert_decision
    rw [hfind]
    have hempty : newId.isEmpty = false := by
      cases newId with
      | nil => exact absurd rfl hne
      | cons a as => rfl
    simp [hempty]
  constructor
  · rw [dns_upsert_endpoints c net₁ domain record_type content name prio ttl
      records hauth h₁, hdec₁]
  · rw [dns_upsert_endpoints c net₂ domain record_type content name prio ttl
      (records ++ [newRec]) hauth h₂, hdec₂]

/-- Witness for C4: empty prior state, then a second upsert against the
state holding only the freshly created record edits that record. -/
theorem upsert_idempotent_after_create_witness :
    (dns_upsert ⟨some (str "k"), some (str "s")⟩
        (fun _ => .ok ⟨[]⟩) (str "example.com") (str "A") (str "1.2.3.4")
        (some (str "www")) none none).1.map NetReq.endpoint
      = [str "dns/retrieve/" ++ str "example.com",
         str "dns/create/" ++ str "example.com"]
    ∧ (dns_upsert ⟨some (str "k"), some (str "s")⟩
        (fun _ => .ok ⟨[⟨some (str "A"), some (str "www.example.com"),
          some (str "42"), some (str "1.2.3.4"), none, none⟩]⟩)
        (str "example.com") (str "A") (str "1.2.3.4")
        (some (str "www")) none none).1.map NetReq.endpoint
      = [str "dns/retrieve/" ++ str "example.com",
         str "dns/edit/" ++ str "example.com" ++ ['/'] ++ str "42"] :=
  upsert_idempotent_after_create
    ⟨some (str "k"), some (str "s")⟩
    (fun _ => .ok ⟨[]⟩)
    (fun _ => .ok ⟨[⟨some (str "A"), some (str "www.example.com"),
      some (str "42"), some (str "1.2.3.4"), none, none⟩]⟩)
    (str "example.com") (str "A") (str "1.2.3.4") (some (str "www"))
    none none []
    ⟨some (str "A"), some (str "www.example.com"), some (str "42"),
      some (str "1.2.3.4"), none, none⟩
    (str "42")
    (by decide) rfl (by intro r hr; cases hr) rfl (by decide) (by decide)
    (by decide) (by decide)

/-- Claim C2 (confirmed): with an absent or empty API key or secret
key, every API-client call (all of which funnel through `_request`)
fails with the missing-credentials error and issues no network request;
and every tool-server tool invocation returns an error-flagged result
with an empty network trace. -/
theorem missing_credentials_fail_before_network (c : Creds)
    (net : NetReq → Except Str ServerResp) (dump : ServerResp → Str)
    (name : Str) (args : ToolArgs) (endpoint : Str)
    (data : List (Str × Str))
    (h : truthy c.api_key = false ∨ truthy c.secret_api_key = false) :
    request c net endpoint data = ([], .error missingCredsMsg)
    ∧ (handle_call_tool c net dump name args).1 = []
    ∧ (handle_call_tool c net dump name args).2.isError = true := by
  have hga : get_auth_payload c = .error missingCredsMsg := by
    unfold get_auth_payload
    rcases h with h | h <;> rw [if_neg] <;> simp [h]
  have hreq : ∀ ep d, request c net ep d = ([], .error missingCredsMsg) := by
    intro ep d
    unfold request
    rw [hga]
  have hup : ∀ d ty co nm, dns_upsert c net d ty co nm none none
      = ([], .error missingCredsMsg) := by
    intro d ty co nm
    unfold dns_upsert dns_retrieve
    rw [hreq]
  have htool : (handle_call_tool c net dump name args).1 = []
      ∧ (handle_call_tool c net dump name args).2.isError = true := by
    unfold handle_call_tool
    by_cases hk : truthy c.api_key = true
    · have hs : truthy c.secret_api_key = false := by
        rcases h with h | h
        · rw [hk] at h; exact absurd h (by simp)
        · exact h
      rw [hk]
      simp only [Bool.not_true, Bool.false_eq_true, if_false]
      split_ifs
      · simp [toolWrap, domain_list, hreq]
      · rcases args.domain with _ | d <;>
          simp [toolWrap, domain_check, hreq]
      · rcases args.domain with _ | d <;>
          simp [toolWrap, dns_retrieve, hreq]
      · rcases hd : args.domain with _ | d <;>
          rcases ht : args.rtype with _ | ty <;>
          rcases hc : args.content with _ | co <;>
          simp [toolWrap, hup]
      · rcases args.domain with _ | d <;>
          rcases args.record_id with _ | rid <;>
          simp [toolWrap, dns_delete, hreq]
      · simp
    · have hk' : truthy c.api_key = false := by
        cases hb : truthy c.api_key
        · rfl
        · exact absurd hb hk
      rw [hk']
      simp
  exact ⟨hreq endpoint data, htool⟩

/-- Witness for C2: a client with no credentials at all, a concrete
tool call and a concrete request. -/
theorem missing_credentials_fail_before_network_witness :
    request ⟨none, none⟩ (fun _ => .ok ⟨[]⟩) (str "ping") []
      = ([], .error missingCredsMsg)
    ∧ (handle_call_tool ⟨none, none⟩ (fun _ => .ok ⟨[]⟩) (fun _ => [])
        (str "dream_porkbun_list_domains")
        ⟨none, none, none, none, none⟩).1 = []
    ∧ (handle_call_tool ⟨none, none⟩ (fun _ => .ok ⟨[]⟩) (fun _ => [])
        (str "dream_porkbun_list_domains")
        ⟨none, none, none, none, none⟩).2.isError = true :=
  missing_credentials_fail_before_network ⟨none, none⟩ (fun _ => .ok ⟨[]⟩)
    (fun _ => []) (str "dream_porkbun_list_domains")
    ⟨none, none, none, none, none⟩ (str "ping") [] (Or.inl rfl)

/-- Claim C3 counterexample: the CLI `dns delete` handler
(`cmd_dns_delete`) reads no confirmation at all and issues the delete
API call unconditionally, refuting the claim that every destructive
operation requires an exact-token confirmation whose mismatch aborts
with no API call. -/
theorem cli_dns_delete_no_confirmation :
    cmd_dns_delete (str "example.com") (str "42")
      = [ApiCall.delete (str "example.com") (str "42")]
    ∧ cmd_dns_delete (str "example.com") (str "42") ≠ [] := by
  decide

/-- Claim C3 (amended): the domain purchase command requires the exact
interactive token `YES` and aborts with no API call on every other
input; the interactive DNS record delete requires a boolean
confirmation and declining it issues no API call; the CLI `dns delete`
command, by contrast, issues the delete with no confirmation step. -/
theorem destructive_confirmation_amended :
    (∀ domain ans, ans ≠ str "YES" → cmd_domain_buy domain ans = [])
    ∧ (∀ domain, cmd_domain_buy domain (str "YES")
        = [ApiCall.domainCreate domain])
    ∧ (∀ domain rid, interactive_dns_delete domain rid false = [])
    ∧ (∀ domain rid, cmd_dns_delete domain rid
        = [ApiCall.delete domain rid]) := by
  refine ⟨?_, ?_, ?_, ?_⟩
  · intro d a ha
    unfold cmd_domain_buy
    rw [if_neg ha]
  · intro d
    unfold cmd_domain_buy
    rw [if_pos rfl]
  · intro d rid
    simp [interactive_dns_delete]
  · intro d rid
    rfl

/-- Witness for the amended C3 theorem: answering `no` to the purchase
prompt issues no API call. -/
theorem destructive_confirmation_amended_witness :
    cmd_domain_buy (str "example.com") (str "no") = [] :=
  destructive_confirmation_amended.1 (str "example.com") (str "no")
    (by decide)

theorem import_loop_dry (failures : ApiCall → Option Str) (domain : Str)
    (n : Nat) : ∀ (i : Nat) (recs : List BulkRecord),
    import_loop failures domain true n i recs
      = ((recs.enumFrom i).map
          (fun p => ImportLine.dry (desc_line p.1 n p.2)), []) := by
  intro i recs
  induction recs generalizing i with
  | nil => rfl
  | cons r rest ih =>
      simp [import_loop, import_step, List.enumFrom, ih]

theorem interactive_import_loop_dry (failures : ApiCall → Option Str)
    (domain : Str) : ∀ (i : Nat) (recs : List BulkRecord),
    interactive_import_loop failures domain true i recs
      = ((recs.enumFrom i).map
          (fun p => ImportLine.dry (interactive_desc_line p.1 p.2)), []) := by
  intro i recs
  induction recs generalizing i with
  | nil => rfl
  | cons r rest ih =>
      simp [interactive_import_loop, interactive_import_step,
        List.enumFrom, ih]

/-- Claim C5 (confirmed): a dry-run bulk import (CLI and interactive
paths) issues no API call at all and prints exactly one intended-action
line per parsed descriptor, in file order, with no descriptor omitted. -/
theorem dry_run_import_no_calls (failures : ApiCall → Option Str)
    (domain : Str) (records : List BulkRecord) :
    (cmd_bulk_import failures domain true records).2 = []
    ∧ (cmd_bulk_import failures domain true records).1
        = (records.enumFrom 1).map
            (fun p => ImportLine.dry (desc_line p.1 records.length p.2))
    ∧ (interactive_bulk_import failures domain true records).2 = []
    ∧ (interactive_bulk_import failures domain true records).1
        = (records.enumFrom 1).map
            (fun p => ImportLine.dry (interactive_desc_line p.1 p.2)) := by
  unfold cmd_bulk_import interactive_bulk_import
  rw [import_loop_dry, interactive_import_loop_dry]
  exact ⟨rfl, rfl, rfl, rfl⟩

theorem import_loop_lines (failures : ApiCall → Option Str) (domain : Str)
    (dry_run : Bool) (n : Nat) : ∀ (i : Nat) (recs : List BulkRecord),
    (import_loop failures domain dry_run n i recs).1
      = (recs.enumFrom i).map
          (fun p => (import_step failures domain dry_run p.1 n p.2).1) := by
  intro i recs
  induction recs generalizing i with
  | nil => rfl
  | cons r rest ih =>
      simp [import_loop, List.enumFrom, ih]

/-- Claim C9 (confirmed): in a non-dry-run bulk import every descriptor
is reported (one line each, in file order), and a descriptor whose
issued API call fails is reported with a `FAIL` line carrying the error
message while the loop still processes every remaining descriptor. -/
theorem bulk_import_failure_tolerance (failures : ApiCall → Option Str)
    (domain : Str) (records : List BulkRecord) :
    (cmd_bulk_import failures domain false records).1.length = records.length
    ∧ (cmd_bulk_import failures domain false records).1
        = (records.enumFrom 1).map
            (fun p => (import_step failures domain false p.1 records.length p.2).1)
    ∧ (∀ i n r a e, import_action domain r = [a] → failures a = some e →
        import_step failures domain false i n r
          = (ImportLine.fail (desc_line i n r) e, [a])) := by
  refine ⟨?_, ?_, ?_⟩
  · unfold cmd_bulk_import
    rw [import_loop_lines]
    simp
  · unfold cmd_bulk_import
    rw [import_loop_lines]
  · intro i n r a e hact hfail
    unfold import_step
    rw [hact]
    simp [hfail]

/-- Witness for C9: a concrete failing create is reported as a `FAIL`
line with the raised message. -/
theorem bulk_import_failure_tolerance_witness :
    import_step (fun _ => some (str "boom")) (str "example.com") false 1 2
        ⟨str "create", str "A", str "www", str "1.2.3.4", none, none, none⟩
      = (ImportLine.fail
          (desc_line 1 2
            ⟨str "create", str "A", str "www", str "1.2.3.4", none, none, none⟩)
          (str "boom"),
         [ApiCall.create (str "example.com") (str "A") (str "1.2.3.4")
            (some (str "www")) none none]) :=
  (bulk_import_failure_tolerance (fun _ => some (str "boom"))
      (str "example.com") []).2.2 1 2
    ⟨str "create", str "A", str "www", str "1.2.3.4", none, none, none⟩
    (ApiCall.create (str "example.com") (str "A") (str "1.2.3.4")
      (some (str "www")) none none)
    (str "boom") (by decide) rfl

/-- Claim C10 (confirmed): in a non-dry-run import, a descriptor whose
action word is none of `create`, `upsert` or `delete` (for instance the
empty string from an empty CSV action column) issues no API call yet is
still reported with the `OK` line. -/
theorem bulk_import_unknown_action_ok (failures : ApiCall → Option Str)
    (domain : Str) (i n : Nat) (r : BulkRecord)
    (h1 : r.action ≠ str "create") (h2 : r.action ≠ str "upsert")
    (h3 : r.action ≠ str "delete") :
    import_step failures domain false i n r
      = (ImportLine.ok (desc_line i n r), []) := by
  have hact : import_action domain r = [] := by
    unfold import_action
    rw [if_neg h1, if_neg h2, if_neg h3]
  unfold import_step
  rw [hact]
  rfl

/-- Witness for C10: the empty action word issues no call and is
reported `OK`. -/
theorem bulk_import_unknown_action_ok_witness :
    import_step (fun _ => none) (str "example.com") false 1 1
        ⟨[], str "A", str "www", str "1.2.3.4", none, none, none⟩
      = (ImportLine.ok
          (desc_line 1 1
            ⟨[], str "A", str "www", str "1.2.3.4", none, none, none⟩), []) :=
  bulk_import_unknown_action_ok (fun _ => none) (str "example.com") 1 1
    ⟨[], str "A", str "www", str "1.2.3.4", none, none, none⟩
    (by decide) (by decide) (by decide)

/-- Claim C6 (confirmed): the bulk-import subdomain derivation strips a
trailing `"." ++ domain` suffix, maps the bare domain to the empty
subdomain, and keeps every other name verbatim (including names on a
different domain). -/
theorem bulk_import_subdomain_resolution (name domain : Str) :
    (('.' :: domain) <:+ name →
      derive_subdomain name domain ++ '.' :: domain = name)
    ∧ (name = domain → derive_subdomain name domain = [])
    ∧ (¬ (('.' :: domain) <:+ name) → name ≠ domain →
        derive_subdomain name domain = name) := by
  refine ⟨?_, ?_, ?_⟩
  · rintro ⟨pre, hpre⟩
    unfold derive_subdomain
    rw [if_pos (List.isSuffixOf_iff_suffix.mpr ⟨pre, hpre⟩)]
    subst hpre
    have hlen : (pre ++ '.' :: domain).length - ('.' :: domain).length
        = pre.length := by
      simp
    rw [hlen, List.take_left]
  · intro heq
    have hns : ¬ (('.' :: domain).isSuffixOf name = true) := by
      intro hsuf
      have hle := (List.isSuffixOf_iff_suffix.mp hsuf).length_le
      rw [heq] at hle
      simp only [List.length_cons] at hle
      omega
    unfold derive_subdomain
    rw [if_neg hns, if_pos heq]
  · intro h1 h2
    unfold derive_subdomain
    rw [if_neg (fun hs => h1 (List.isSuffixOf_iff_suffix.mp hs)), if_neg h2]

/-- Witness for C6: all three cases at concrete names. -/
theorem bulk_import_subdomain_resolution_witness :
    derive_subdomain (str "www.example.com") (str "example.com")
        ++ '.' :: (str "example.com") = str "www.example.com"
    ∧ derive_subdomain (str "example.com") (str "example.com") = []
    ∧ derive_subdomain (str "other.net") (str "example.com")
        = str "other.net" :=
  ⟨(bulk_import_subdomain_resolution (str "www.example.com")
      (str "example.com")).1 (by decide),
   (bulk_import_subdomain_resolution (str "example.com")
      (str "example.com")).2.1 rfl,
   (bulk_import_subdomain_resolution (str "other.net")
      (str "example.com")).2.2 (by decide) (by decide)⟩

/-- Claim C7 (confirmed): the `dns_create` and `dns_edit` payloads
carry a `prio` key exactly when the prio argument is present and a
`ttl` key exactly when the ttl argument is present, each valued with
the decimal string of the argument, so a priority of zero is sent as
`0` and is distinguished from an omitted priority. -/
theorem dns_payload_optional_prio_ttl (record_type content : Str)
    (name : Option Str) (prio ttl : Option Int) :
    List.lookup (str "prio") (dns_create_data record_type content name prio ttl)
        = prio.map intStr
    ∧ List.lookup (str "ttl") (dns_create_data record_type content name prio ttl)
        = ttl.map intStr
    ∧ List.lookup (str "prio") (dns_edit_data record_type content name prio ttl)
        = prio.map intStr
    ∧ List.lookup (str "ttl") (dns_edit_data record_type content name prio ttl)
        = ttl.map intStr := by
  refine ⟨?_, ?_, ?_, ?_⟩ <;>
    rcases name with _ | n <;>
    first
      | (rcases prio with _ | p <;> rcases ttl with _ | t <;> rfl)
      | (cases hn : n.isEmpty <;> rcases prio with _ | p <;>
          rcases ttl with _ | t <;>
          simp only [dns_create_data, dns_edit_data, hn] <;> rfl)

/-- Claim C8 counterexample: a 41-character content rendered by the
interactive DNS table is cut to its first 40 characters with no
ellipsis marker appended, refuting the claim that every table rendering
appends an ellipsis marker when the content exceeds its budget. -/
theorem interactive_table_no_ellipsis :
    (List.replicate 41 'a').length > 40
    ∧ interactive_dns_content_cell
        ⟨none, none, none, some (List.replicate 41 'a'), none, none⟩
      = List.replicate 40 'a'
    ∧ ((str "...").isSuffixOf
        (interactive_dns_content_cell
          ⟨none, none, none, some (List.replicate 41 'a'), none, none⟩))
      = false := by
  decide

/-- Claim C8 (amended): the CLI DNS table truncates contents longer
than 50 characters to 47 plus an ellipsis marker and leaves shorter
contents unchanged; the interactive DNS table instead truncates to the
first 40 characters with no marker; the JSON export projection carries
type, name, content, priority and ttl through unchanged, and the CSV
export row carries them with only absent optionals written as the empty
string — truncation never applies to exported data. -/
theorem display_truncation_export_amended (r : DnsRecord) :
    (((r.content).getD []).length ≤ 50 →
      cli_dns_content_cell r = (r.content).getD [])
    ∧ (((r.content).getD []).length > 50 →
      cli_dns_content_cell r = ((r.content).getD []).take 47 ++ str "...")
    ∧ interactive_dns_content_cell r = ((r.content).getD []).take 40
    ∧ (export_projection r).content = r.content
    ∧ (export_projection r).rtype = r.rtype
    ∧ (export_projection r).name = r.name
    ∧ (export_projection r).prio = r.prio
    ∧ (export_projection r).ttl = r.ttl
    ∧ csv_row (export_projection r)
        = [(r.rtype).getD [], (r.name).getD [], (r.content).getD [],
           (r.prio).getD [], (r.ttl).getD []] := by
  refine ⟨?_, ?_, rfl, rfl, rfl, rfl, rfl, rfl, rfl⟩
  · intro h
    unfold cli_dns_content_cell
    rw [if_neg (by omega)]
  · intro h
    unfold cli_dns_content_cell
    rw [if_pos h]

/-- Witness for the amended C8 theorem: a short content is rendered
unchanged by the CLI table. -/
theorem display_truncation_export_amended_witness :
    cli_dns_content_cell
        ⟨none, none, none, some (str "198.51.100.7"), none, none⟩
      = ((some (str "198.51.100.7")).getD []) :=
  (display_truncation_export_amended
      ⟨none, none, none, some (str "198.51.100.7"), none, none⟩).1
    (by decide)
